import Mathlib

/-
Verification of the snailbus request-authentication, authorization and
tenant-isolation pipeline, as a shallow embedding of the Go sources.

Conventions of the embedding:
- Go strings are Lean `String`; absent HTTP headers are the empty string,
  matching the gin `c.GetHeader` accessor which returns "" for a missing header.
- Cookies are `Option String` (the gin `c.Cookie` accessor returns an error when the
  cookie is absent).
- `time.Time` values are `Nat` ticks; `*time.Time` is `Option Nat`.
- The bcrypt primitive (an external library) is a function parameter
  `verify / checkPassword / bcryptHash`; theorems quantify over it.
- Database tables are lists of rows; the SQL in `internal/storage/postgres.go`
  is embedded by its row-level semantics (WHERE clauses become filters,
  `QueryRow` becomes `find?`, `RowsAffected` becomes a match count).
  `ORDER BY received_at DESC` is presentation-level and is not modelled;
  no claim here depends on result order.
- JSON response bodies (`gin.H`) are association lists of field name to value.
-/

namespace Snailbus

/-- JSON-ish values appearing in the response bodies this development needs. -/
inductive JVal where
  | str (s : String)
  | strs (l : List String)
  | int (i : Int)
  | nat (n : Nat)
  | optNat (n : Option Nat)
  | usr (id username email : String) (isActive isAdmin : Bool) (orgId role : String)
deriving DecidableEq

/-- A JSON object body: field name to value, in emission order. -/
abbrev Body := List (String × JVal)

/-- Go error values as used by the storage layer: the `ErrNotFound` sentinel,
`fmt.Errorf("...: %w", inner)` wrapping, and other opaque errors. -/
inductive GoError where
  | notFound
  | wrapped (msg : String) (inner : GoError)
  | other (msg : String)
deriving DecidableEq

/-- `errors.Is(err, ErrNotFound)`: true for the sentinel and anything wrapping it. -/
def GoError.isNotFound : GoError → Bool
  | .notFound => true
  | .wrapped _ inner => inner.isNotFound
  | .other _ => false

/-! ## Data model (internal/models) -/

/-- `models.User` (timestamps dropped: no claim consults them). -/
structure User where
  id : String
  username : String
  email : String
  isActive : Bool
  isAdmin : Bool
  orgId : String
  role : String
deriving DecidableEq

/-- `models.APIKey`: only the hash and the 8-character lookup prefix persist. -/
structure APIKey where
  id : String
  userId : String
  keyHash : String
  keyPfx : String
  name : String
  lastUsedAt : Option Nat
  expiresAt : Option Nat
  createdAt : Nat
deriving DecidableEq

/-- A row of the `hosts` table (migrations 000009: `org_id` and
`uploaded_by_user_id` are required columns). `data` is the opaque JSONB
payload. -/
structure HostRow where
  hostId : String
  hostname : String
  receivedAt : Nat
  collectionId : String
  timestamp : Nat
  snailVersion : String
  data : String
  errors : List String
  orgId : String
  uploadedByUserId : String
deriving DecidableEq

/-- `models.ReportMeta`. -/
structure ReportMeta where
  hostname : String
  hostId : String
  collectionId : String
  timestamp : Nat
  snailVersion : String
deriving DecidableEq

/-- `models.Report`. -/
structure Report where
  id : String
  receivedAt : Nat
  meta : ReportMeta
  data : String
  errors : List String
deriving DecidableEq

/-- OS fields that `ListHosts` extracts from the JSONB `data` column.
The JSON traversal itself (`encoding/json` unmarshalling) is orthogonal to
tenancy and is kept abstract: `listHosts` takes the extractor as a
parameter. -/
structure OSInfo where
  osName : String
  osVersion : String
  osVersionMajor : String
  osVersionMinor : String
  osVersionPatch : String
deriving DecidableEq

/-- `models.HostSummary` (tenant-scoped variant with org columns). -/
structure HostSummary where
  hostId : String
  hostname : String
  osName : String
  osVersion : String
  osVersionMajor : String
  osVersionMinor : String
  osVersionPatch : String
  orgId : String
  uploadedByUserId : String
  lastSeen : Nat
deriving DecidableEq

/-! ## Credential subsystem (internal/auth, src/unnamed/part_009) -/

/-- `auth.APIKeyLength`: bytes of entropy drawn for an API key, before base64. -/
def apiKeyLength : Nat := 32

/-- `auth.BcryptCost`. -/
def bcryptCost : Nat := 12

/-- Base64 alphabet: `encoding/base64` StdEncoding when `std`, URLEncoding
otherwise (they differ only in the last two symbols). -/
def b64Alpha (std : Bool) : List Char :=
  ("ABCDEFGHIJKLMNOPQRSTUVWXYZabcdefghijklmnopqrstuvwxyz0123456789"
    ++ (if std then "+/" else "-_")).toList

/-- One pass of base64 encoding: three bytes become four symbols, with
`=` padding exactly as `encoding/base64` emits it. -/
def b64Chunks (alpha : List Char) : List UInt8 → List Char
  | b1 :: b2 :: b3 :: rest =>
      let n := b1.toNat * 65536 + b2.toNat * 256 + b3.toNat
      alpha.getD (n / 262144) 'A' :: alpha.getD (n / 4096 % 64) 'A' ::
        alpha.getD (n / 64 % 64) 'A' :: alpha.getD (n % 64) 'A' ::
        b64Chunks alpha rest
  | [b1, b2] =>
      let n := b1.toNat * 65536 + b2.toNat * 256
      [alpha.getD (n / 262144) 'A', alpha.getD (n / 4096 % 64) 'A',
        alpha.getD (n / 64 % 64) 'A', '=']
  | [b1] =>
      let n := b1.toNat * 65536
      [alpha.getD (n / 262144) 'A', alpha.getD (n / 4096 % 64) 'A', '=', '=']
  | [] => []

/-- `base64.StdEncoding.EncodeToString` / `base64.URLEncoding.EncodeToString`. -/
def base64Encode (std : Bool) (bytes : List UInt8) : String :=
  String.mk (b64Chunks (b64Alpha std) bytes)

/-- `auth.GetKeyPrefix`: first 8 characters of the plaintext (byte slicing in
Go; base64 output is ASCII so character slicing coincides). -/
def getKeyPfx (plainKey : String) : String :=
  if plainKey.length ≥ 8 then plainKey.take 8 else plainKey

/-- `auth.GenerateAPIKey`, given the `APIKeyLength` random bytes already drawn
by `crypto/rand` and the external bcrypt primitive. Returns
(plaintext, hash, prefix): URL-safe base64 plaintext, bcrypt hash of the raw
bytes, first-8-characters prefix. -/
def generateAPIKey (bcryptHash : List UInt8 → String) (keyBytes : List UInt8) :
    String × String × String :=
  let plainKey := base64Encode false keyBytes
  let keyPfx := if plainKey.length ≥ 8 then plainKey.take 8 else plainKey
  (plainKey, bcryptHash keyBytes, keyPfx)

/-- `auth.IsExpired`: absent expiry never expires; `time.Now().After(t)`. -/
def isExpired (now : Nat) (expiresAt : Option Nat) : Bool :=
  match expiresAt with
  | none => false
  | some t => now > t

/-! ## CSRF token generation (internal/middleware/csrf.go) -/

/-- Byte count drawn by `generateCSRFToken` (`make([]byte, 32)`). -/
def csrfTokenNumBytes : Nat := 32

/-- `middleware.generateCSRFToken`, given the random bytes already drawn:
standard (not URL-safe) base64 of 32 random bytes. -/
def generateCSRFToken (tokenBytes : List UInt8) : String :=
  base64Encode true tokenBytes

/-- `middleware.generateCSRFToken` with the byte source explicit: the source
is asked for `csrfTokenNumBytes` bytes. -/
def generateCSRFTokenDraw (draw : Nat → List UInt8) : String :=
  generateCSRFToken (draw csrfTokenNumBytes)

/-- `auth.GenerateAPIKey` with the byte source explicit: the source is asked
for `apiKeyLength` bytes. -/
def generateAPIKeyDraw (bcryptHash : List UInt8 → String)
    (draw : Nat → List UInt8) : String × String × String :=
  generateAPIKey bcryptHash (draw apiKeyLength)

/-! ## Tenant-scoped storage (internal/storage/postgres.go) -/

/-- Assembling a `models.Report` from a scanned `hosts` row, including the
`report.ID = report.Meta.HostID` fix-up done by `GetHost`/`GetAllHosts`. -/
def reportOfRow (r : HostRow) : Report :=
  { id := r.hostId
    receivedAt := r.receivedAt
    meta := { hostname := r.hostname, hostId := r.hostId,
              collectionId := r.collectionId, timestamp := r.timestamp,
              snailVersion := r.snailVersion }
    data := r.data
    errors := r.errors }

/-- Assembling a `models.HostSummary` from a scanned row in `ListHosts`,
with the OS fields produced by the JSON extraction (abstracted as
`extractOS`). -/
def summaryOfRow (extractOS : String → OSInfo) (r : HostRow) : HostSummary :=
  let os := extractOS r.data
  { hostId := r.hostId, hostname := r.hostname
    osName := os.osName, osVersion := os.osVersion
    osVersionMajor := os.osVersionMajor, osVersionMinor := os.osVersionMinor
    osVersionPatch := os.osVersionPatch
    orgId := r.orgId, uploadedByUserId := r.uploadedByUserId
    lastSeen := r.receivedAt }

/-- `PostgresStorage.GetHost`:
`SELECT ... FROM hosts WHERE host_id = $1 AND org_id = $2`; `sql.ErrNoRows`
becomes `ErrNotFound`. -/
def getHost (hostId orgId : String) (db : List HostRow) :
    Except GoError Report :=
  match db.find? (fun r => r.hostId == hostId && r.orgId == orgId) with
  | none => .error .notFound
  | some r => .ok (reportOfRow r)

/-- `PostgresStorage.DeleteHost`:
`DELETE FROM hosts WHERE host_id = $1 AND org_id = $2`; zero rows affected
becomes `ErrNotFound`. Returns the error outcome and the table afterwards. -/
def deleteHost (hostId orgId : String) (db : List HostRow) :
    Except GoError Unit × List HostRow :=
  let affected := (db.filter (fun r => r.hostId == hostId && r.orgId == orgId)).length
  let db2 := db.filter (fun r => !(r.hostId == hostId && r.orgId == orgId))
  if affected = 0 then (.error .notFound, db2) else (.ok (), db2)

/-- `PostgresStorage.ListHosts`:
`SELECT ... FROM hosts WHERE org_id = $1` with per-row summary assembly. -/
def listHosts (extractOS : String → OSInfo) (orgId : String)
    (db : List HostRow) : List HostSummary :=
  (db.filter (fun r => r.orgId == orgId)).map (summaryOfRow extractOS)

/-- `PostgresStorage.GetAllHosts`:
`SELECT ... FROM hosts WHERE org_id = $1` with full report assembly. -/
def getAllHosts (orgId : String) (db : List HostRow) : List Report :=
  (db.filter (fun r => r.orgId == orgId)).map reportOfRow

/-- The upsert statement of `SaveHost`:
`INSERT ... ON CONFLICT (host_id) DO UPDATE SET ...` — the row keyed by
`host_id` is replaced (all listed columns, including `org_id` and
`uploaded_by_user_id`), or appended when absent. -/
def upsertHost (row : HostRow) (db : List HostRow) : List HostRow :=
  if db.any (fun r => r.hostId == row.hostId) then
    db.map (fun r => if r.hostId == row.hostId then row else r)
  else
    db ++ [row]

/-- The row that `SaveHost` writes for a report under (orgId, uploadedBy). -/
def rowOfReport (report : Report) (orgId uploadedByUserId : String) : HostRow :=
  { hostId := report.meta.hostId, hostname := report.meta.hostname
    receivedAt := report.receivedAt, collectionId := report.meta.collectionId
    timestamp := report.meta.timestamp, snailVersion := report.meta.snailVersion
    data := report.data, errors := report.errors
    orgId := orgId, uploadedByUserId := uploadedByUserId }

/-- `PostgresStorage.SaveHost` (tenant-scoped variant): first
`SELECT org_id FROM hosts WHERE host_id = $1`; if a row exists under a
different organization, return
`fmt.Errorf("host belongs to a different organization: %w", ErrNotFound)`;
otherwise run the upsert. -/
def saveHost (report : Report) (orgId uploadedByUserId : String)
    (db : List HostRow) : Except GoError Unit × List HostRow :=
  match db.find? (fun r => r.hostId == report.meta.hostId) with
  | some existing =>
      if existing.orgId ≠ orgId then
        (.error (.wrapped "host belongs to a different organization" .notFound), db)
      else
        (.ok (), upsertHost (rowOfReport report orgId uploadedByUserId) db)
  | none =>
      (.ok (), upsertHost (rowOfReport report orgId uploadedByUserId) db)

/-- `Storage.GetUserByID` over the users table. -/
def getUserByID (users : List User) (userId : String) : Except GoError User :=
  match users.find? (fun u => u.id == userId) with
  | some u => .ok u
  | none => .error .notFound

/-- `Storage.DeleteUser`: `DELETE FROM users WHERE id = $1`; zero rows
affected becomes `ErrNotFound`. -/
def deleteUserStorage (userId : String) (users : List User) :
    Except GoError Unit × List User :=
  if users.any (fun u => u.id == userId) then
    (.ok (), users.filter (fun u => !(u.id == userId)))
  else
    (.error .notFound, users)

/-- `Storage.GetAPIKeyByPrefix`:
`SELECT ... FROM api_keys WHERE key_prefix = $1` (all matches: a prefix is a
collision-prone accelerator, not a unique key). -/
def getAPIKeyByPfx (keys : List APIKey) (pfx : String) : List APIKey :=
  keys.filter (fun k => k.keyPfx == pfx)

/-! ## Header credential extraction
(`AuthMiddleware` in src/unnamed/part_002 and `APIKeyRateLimitMiddleware` in
internal/middleware/ratelimit.go carry the same inline logic; each is
embedded separately so each theorem names its own code site.) -/

/-- `strings.SplitN(s, " ", 2)` restricted to its call sites: locate the
first space; `none` when there is none. -/
def splitFirstSpace : List Char → Option (List Char × List Char)
  | [] => none
  | c :: rest =>
      if c = Char.ofNat 32 then some ([], rest)
      else
        match splitFirstSpace rest with
        | none => none
        | some (a, b) => some (c :: a, b)

/-- `strings.SplitN(authHeader, " ", 2)`: one part when no separator occurs,
otherwise the text before the first space and everything after it. -/
def splitN2Space (s : String) : List String :=
  match splitFirstSpace s.toList with
  | none => [s]
  | some (a, b) => [String.mk a, String.mk b]

/-- Credential extraction of `AuthMiddleware`: `X-API-Key` first; when empty,
fall back to the `Authorization` header and, when it splits into two parts at
the first space, take the second part — the scheme word is never inspected. -/
def extractAPIKeyAuth (xApiKey authHeader : String) : String :=
  if xApiKey == "" then
    if authHeader != "" then
      match splitN2Space authHeader with
      | [_, v] => v
      | _ => ""
    else ""
  else xApiKey

/-- Credential extraction of `APIKeyRateLimitMiddleware` (same inline logic
at its own code site in ratelimit.go). -/
def extractAPIKeyRL (xApiKey authHeader : String) : String :=
  if xApiKey == "" then
    if authHeader != "" then
      match splitN2Space authHeader with
      | [_, v] => v
      | _ => ""
    else ""
  else xApiKey

/-! ## Authentication and authorization middleware (src/unnamed/part_002) -/

/-- Terminal outcome of `AuthMiddleware`: `c.JSON(status, body); c.Abort()`,
or `c.Next()` after populating the request context with user id, API key id
and the user record. -/
inductive AuthOut where
  | abort (status : Nat) (body : Body)
  | next (userId apiKeyId : String) (user : User)
deriving DecidableEq

/-- `middleware.AuthMiddleware`. `verify` is `auth.VerifyAPIKey` (bcrypt,
external), `now` the clock, `dbErr` whether `GetAPIKeyByPrefix` fails.
The candidate loop verifies prefix matches in order and stops at the first
verifying key, aborting there when that key is expired; a match whose owner
is missing or inactive aborts as inactive. The async last-used update has no
effect on the outcome and is not modelled. -/
def authMiddleware (verify : String → String → Bool) (now : Nat)
    (keys : List APIKey) (users : List User) (dbErr : Bool)
    (xApiKey authHeader : String) : AuthOut :=
  let apiKey := extractAPIKeyAuth xApiKey authHeader
  if apiKey == "" then
    .abort 401 [("error", .str "missing API key"),
      ("message", .str "Please provide an API key in the X-API-Key header")]
  else if dbErr then
    .abort 500 [("error", .str "authentication error")]
  else
    let candidates := getAPIKeyByPfx keys (getKeyPfx apiKey)
    if candidates.isEmpty then
      .abort 401 [("error", .str "invalid API key")]
    else
      match candidates.find? (fun k => verify apiKey k.keyHash) with
      | none => .abort 401 [("error", .str "invalid API key")]
      | some k =>
          if isExpired now k.expiresAt then
            .abort 401 [("error", .str "API key expired")]
          else
            match getUserByID users k.userId with
            | .error _ => .abort 401 [("error", .str "user account is inactive")]
            | .ok u =>
                if !u.isActive then
                  .abort 401 [("error", .str "user account is inactive")]
                else
                  .next k.userId k.id u

/-- A value stored under the `"user"` context key: the user record set by
`AuthMiddleware`, or a value of some other type (the failed type assertion
branch of `RequireRole`). -/
inductive CtxVal where
  | user (u : User)
  | nonUser
deriving DecidableEq

/-- Terminal outcome of a middleware that adds nothing to the context:
abort with a JSON body, or pass the request on. -/
inductive MWOut where
  | abort (status : Nat) (body : Body)
  | pass
deriving DecidableEq

/-- `middleware.RequireRole(requiredRoles...)` applied to the `"user"`
context slot: missing context aborts Unauthorized, a non-user value aborts
Internal, otherwise pure string-equality membership of the role in the
allowed list, with the diagnostic Forbidden body on failure. -/
def requireRole (requiredRoles : List String) (ctx : Option CtxVal) : MWOut :=
  match ctx with
  | none =>
      .abort 401 [("error", .str "unauthorized"),
        ("message", .str "User not found in context. Ensure AuthMiddleware is applied before RequireRole.")]
  | some .nonUser =>
      .abort 500 [("error", .str "internal server error"),
        ("message", .str "Invalid user type in context")]
  | some (.user u) =>
      if requiredRoles.any (fun r => u.role == r) then
        .pass
      else
        .abort 403 [("error", .str "insufficient role"),
          ("message", .str "Your role does not have permission to access this resource"),
          ("required_roles", .strs requiredRoles),
          ("your_role", .str u.role)]

/-! ## CSRF guard (internal/middleware/csrf.go) -/

/-- `strings.ToUpper` at its call site: the values compared against are the
ASCII method names, so per-character ASCII upper-casing is the exact
semantics needed. -/
def asciiToUpper (s : String) : String :=
  String.mk (s.toList.map Char.toUpper)

/-- `middleware.IsStateChangingMethod`: POST, PUT, PATCH and DELETE after
upper-casing. -/
def isStateChangingMethod (method : String) : Bool :=
  ["POST", "PUT", "PATCH", "DELETE"].any (fun m => asciiToUpper method == m)

/-- `middleware.isAuthEndpoint`: the explicit pre-authentication allow-list. -/
def isAuthEndpoint (path : String) : Bool :=
  ["/api/v1/auth/login", "/api/v1/auth/register", "/api/v1/auth/api-key"].any
    (fun e => path == e)

/-- `middleware.validateCSRFToken`: plain value equality plus non-emptiness;
the auth key parameter is accepted and unused, as in the source. -/
def validateCSRFToken (providedToken expectedToken : String)
    (authKey : List UInt8) : Bool :=
  providedToken == expectedToken && providedToken != ""

/-- The uniform Forbidden body of every CSRF rejection branch. -/
def csrfFailBody : Body := [("error", .str "CSRF token validation failed")]

/-- `middleware.CSRFTokens`: skip for safe methods and for the
pre-authentication allow-list; else require a non-empty `X-CSRF-Token`
header, a present non-empty `csrf_token` cookie, and `validateCSRFToken`
agreement, aborting Forbidden otherwise. -/
def csrfTokens (method path headerTok : String) (cookieTok : Option String)
    (authKey : List UInt8) : MWOut :=
  if !(isStateChangingMethod method) then .pass
  else if isAuthEndpoint path then .pass
  else if headerTok == "" then .abort 403 csrfFailBody
  else
    match cookieTok with
    | none => .abort 403 csrfFailBody
    | some v =>
        if v == "" then .abort 403 csrfFailBody
        else if !(validateCSRFToken headerTok v authKey) then .abort 403 csrfFailBody
        else .pass

/-! ## Rate limiting (internal/middleware/ratelimit.go) -/

/-- What `instance.Get(c, key)` hands back: a backend error, or a limiter
context with limit, remaining, reset and whether the limit was reached. -/
inductive LimiterRes where
  | err (msg : String)
  | ok (limit remaining reset : Int) (reached : Bool)
deriving DecidableEq

/-- The decision step of `APIKeyRateLimitMiddleware` after key extraction:
on a backend error the fault is logged and `c.Next()` runs — the request
proceeds (fail-open); otherwise a reached limit aborts 429 with the
limit metadata body, else the request proceeds. `periodSecs` is
`rate.Period.Seconds()`, `rateLimit` is `rate.Limit`, `periodStr` and
`resetTimeStr` the formatted period and reset time. -/
def apiKeyRateLimitStep (periodSecs : Nat) (rateLimit : Int)
    (periodStr resetTimeStr : String) (res : LimiterRes) : MWOut :=
  match res with
  | .err _ => .pass
  | .ok _ _ _ reached =>
      if reached then
        .abort 429 [("error", .str "rate limit exceeded"),
          ("message", .str "Too many requests"),
          ("retry_after", .nat periodSecs),
          ("limit", .int rateLimit),
          ("period", .str periodStr),
          ("reset_time", .str resetTimeStr)]
      else .pass

/-! ## Handlers (internal/handlers, auth handlers with org support) -/

/-- An HTTP response: `c.JSON(status, body)` (204 carries an empty body). -/
structure HResp where
  status : Nat
  body : Body
deriving DecidableEq

/-- A bound login request. -/
structure LoginReq where
  username : String
  password : String
deriving DecidableEq

/-- `Handlers.Login`: credentials check, then `GenerateAPIKey`, then
`storage.CreateAPIKey`, and only a fully persisted key is echoed back as the
session token. Effectful collaborator results are inputs: `bindErr` the JSON
binding error, `lookupRes` the `GetUserByUsername` result (user and password
hash), `checkPassword` the bcrypt comparison, `genRes` the `GenerateAPIKey`
result (`none` on entropy or hashing failure), `createRes` the
`CreateAPIKey` persistence result. -/
def login (bindErr : Option String)
    (lookupRes : Except GoError (User × String))
    (checkPassword : String → String → Bool)
    (genRes : Option (String × String × String))
    (createRes : Except GoError APIKey)
    (req : LoginReq) : HResp :=
  match bindErr with
  | some m => ⟨400, [("error", .str m)]⟩
  | none =>
    match lookupRes with
    | .error _ => ⟨401, [("error", .str "invalid credentials")]⟩
    | .ok (u, passwordHash) =>
        if !u.isActive then ⟨401, [("error", .str "account is inactive")]⟩
        else if !(checkPassword req.password passwordHash) then
          ⟨401, [("error", .str "invalid credentials")]⟩
        else
          match genRes with
          | none => ⟨500, [("error", .str "failed to create session")]⟩
          | some (plainKey, _, _) =>
              match createRes with
              | .error _ => ⟨500, [("error", .str "failed to create session")]⟩
              | .ok _ =>
                  ⟨200, [("user", .usr u.id u.username u.email u.isActive
                            u.isAdmin u.orgId u.role),
                         ("token", .str plainKey)]⟩

/-- `Handlers.CreateAPIKey`: context user id, bind, `GenerateAPIKey`,
`storage.CreateAPIKey`, and only then the plaintext in the 201 body. -/
def createAPIKeyHandler (ctxUserId : Option String) (bindErr : Option String)
    (genRes : Option (String × String × String))
    (createRes : Except GoError APIKey) : HResp :=
  match ctxUserId with
  | none => ⟨401, [("error", .str "unauthorized")]⟩
  | some _ =>
    match bindErr with
    | some m => ⟨400, [("error", .str m)]⟩
    | none =>
      match genRes with
      | none => ⟨500, [("error", .str "failed to generate API key")]⟩
      | some (plainKey, _, _) =>
          match createRes with
          | .error _ => ⟨500, [("error", .str "failed to create API key")]⟩
          | .ok row =>
              ⟨201, [("id", .str row.id), ("key", .str plainKey),
                     ("name", .str row.name),
                     ("expires_at", .optNat row.expiresAt),
                     ("created_at", .nat row.createdAt)]⟩

/-- `Handlers.GetAPIKeyFromCredentials`: username/password authentication,
then `GenerateAPIKey`, then `storage.CreateAPIKey`, then the 200 body with
the plaintext. -/
def getAPIKeyFromCredentials (bindErr : Option String)
    (lookupRes : Except GoError (User × String))
    (checkPassword : String → String → Bool)
    (genRes : Option (String × String × String))
    (createRes : Except GoError APIKey)
    (req : LoginReq) : HResp :=
  match bindErr with
  | some m => ⟨400, [("error", .str m)]⟩
  | none =>
    match lookupRes with
    | .error _ => ⟨401, [("error", .str "invalid credentials")]⟩
    | .ok (u, passwordHash) =>
        if !u.isActive then ⟨401, [("error", .str "account is inactive")]⟩
        else if !(checkPassword req.password passwordHash) then
          ⟨401, [("error", .str "invalid credentials")]⟩
        else
          match genRes with
          | none => ⟨500, [("error", .str "failed to generate API key")]⟩
          | some (plainKey, _, _) =>
              match createRes with
              | .error _ => ⟨500, [("error", .str "failed to create API key")]⟩
              | .ok row =>
                  ⟨200, [("id", .str row.id), ("key", .str plainKey),
                         ("name", .str row.name),
                         ("expires_at", .optNat row.expiresAt),
                         ("created_at", .nat row.createdAt)]⟩

/-- `Handlers.DeleteUser` (admin-only route): the self-targeting check runs
first, before any storage access; then same-organization enforcement, then
the storage delete. Returns the response and the users table afterwards. -/
def deleteUserHandler (ctxUser : Option User) (targetId : String)
    (users : List User) : HResp × List User :=
  match ctxUser with
  | none => (⟨401, [("error", .str "unauthorized")]⟩, users)
  | some currentUser =>
      if currentUser.id == targetId then
        (⟨403, [("error", .str "cannot delete yourself"),
          ("message", .str "You cannot delete your own account. Ask another admin to delete it for you.")]⟩,
          users)
      else
        match getUserByID users targetId with
        | .error _ => (⟨404, [("error", .str "user not found")]⟩, users)
        | .ok targetUser =>
            if targetUser.orgId != currentUser.orgId then
              (⟨403, [("error", .str "user not in your organization"),
                ("message", .str "You can only delete users in your own organization.")]⟩,
                users)
            else
              match deleteUserStorage targetId users with
              | (.error _, us) => (⟨404, [("error", .str "user not found")]⟩, us)
              | (.ok _, us) => (⟨204, []⟩, us)

/-! ## Shared helper lemmas -/

theorem toList_append_eq (s t : String) : (s ++ t).toList = s.toList ++ t.toList := by
  cases s
  cases t
  rfl

theorem splitFirstSpace_append (a b : List Char)
    (ha : ∀ c ∈ a, c ≠ Char.ofNat 32) :
    splitFirstSpace (a ++ Char.ofNat 32 :: b) = some (a, b) := by
  induction a with
  | nil => simp [splitFirstSpace]
  | cons c cs ih =>
      have hc : ¬ c = Char.ofNat 32 := ha c (List.mem_cons_self c cs)
      simp [splitFirstSpace, hc, ih fun x hx => ha x (List.mem_cons_of_mem _ hx)]

theorem toList_scheme_space (scheme v : String) :
    (scheme ++ " " ++ v).toList = scheme.toList ++ Char.ofNat 32 :: v.toList := by
  rw [toList_append_eq, toList_append_eq]
  have hsp : (" " : String).toList = [Char.ofNat 32] := by decide
  rw [hsp, List.append_assoc]
  rfl

theorem splitN2Space_scheme (scheme v : String)
    (hs : ∀ c ∈ scheme.toList, c ≠ Char.ofNat 32) :
    splitN2Space (scheme ++ " " ++ v) = [scheme, v] := by
  unfold splitN2Space
  rw [toList_scheme_space, splitFirstSpace_append _ _ hs]
  rfl

theorem scheme_space_ne_empty (scheme v : String) :
    scheme ++ " " ++ v ≠ "" := by
  intro h
  have h2 := congrArg String.toList h
  rw [toList_scheme_space] at h2
  simp at h2

theorem find?_none_of {α} (p : α → Bool) (l : List α)
    (h : ∀ a ∈ l, ¬ p a = true) : l.find? p = none := by
  induction l with
  | nil => rfl
  | cons a as ih =>
      have ha : p a = false := by
        have := h a (List.mem_cons_self a as)
        revert this
        cases p a <;> simp
      rw [List.find?_cons, ha]
      exact ih fun x hx => h x (List.mem_cons_of_mem _ hx)

theorem filter_pos_eq_nil {α} (p : α → Bool) (l : List α)
    (h : ∀ a ∈ l, ¬ p a = true) : l.filter p = [] := by
  induction l with
  | nil => rfl
  | cons a as ih =>
      have ha : p a = false := by
        have := h a (List.mem_cons_self a as)
        revert this
        cases p a <;> simp
      rw [List.filter_cons, ha]
      simpa using ih fun x hx => h x (List.mem_cons_of_mem _ hx)

theorem filter_neg_eq_self {α} (p : α → Bool) (l : List α)
    (h : ∀ a ∈ l, ¬ p a = true) : l.filter (fun a => !(p a)) = l := by
  induction l with
  | nil => rfl
  | cons a as ih =>
      have ha : p a = false := by
        have := h a (List.mem_cons_self a as)
        revert this
        cases p a <;> simp
      rw [List.filter_cons]
      simp only [ha, Bool.not_false, if_true]
      rw [ih fun x hx => h x (List.mem_cons_of_mem _ hx)]

/-! ## Claims -/

/-- C10: with an empty X-API-Key header, the Authorization fallback in both
AuthMiddleware and APIKeyRateLimitMiddleware takes everything after the first
space of the header value as the candidate key, for an arbitrary scheme word:
the scheme is never compared against an allowed set. -/
theorem c10_any_scheme_accepted (scheme v : String)
    (hs : ∀ c ∈ scheme.toList, c ≠ Char.ofNat 32) :
    extractAPIKeyAuth "" (scheme ++ " " ++ v) = v ∧
    extractAPIKeyRL "" (scheme ++ " " ++ v) = v := by
  have hne : (scheme ++ " " ++ v) ≠ "" := scheme_space_ne_empty scheme v
  have hsplit := splitN2Space_scheme scheme v hs
  constructor <;>
    simp [extractAPIKeyAuth, extractAPIKeyRL, hsplit, hne]

/-- Witness for C10 at the non-standard scheme word "Token". -/
theorem c10_any_scheme_accepted_witness :
    extractAPIKeyAuth "" ("Token" ++ " " ++ "sk-12345") = "sk-12345" ∧
    extractAPIKeyRL "" ("Token" ++ " " ++ "sk-12345") = "sk-12345" :=
  c10_any_scheme_accepted "Token" "sk-12345" (by decide)

/-- C5: RequireRole passes an authenticated user iff the role string is a
member of the allowed list (flat string membership, no hierarchy), and on
failure aborts Forbidden with the allowed roles under required_roles and the
actual role under your_role. -/
theorem c5_require_role_membership (allowed : List String) (u : User) :
    (requireRole allowed (some (.user u)) = .pass ↔ u.role ∈ allowed) ∧
    (u.role ∉ allowed →
      requireRole allowed (some (.user u)) =
        .abort 403 [("error", .str "insufficient role"),
          ("message", .str "Your role does not have permission to access this resource"),
          ("required_roles", .strs allowed),
          ("your_role", .str u.role)]) := by
  have hany : (allowed.any fun r => u.role == r) = true ↔ u.role ∈ allowed := by
    simp [List.any_eq_true]
  constructor
  · by_cases hmem : u.role ∈ allowed
    · simp [requireRole, hany.mpr hmem, hmem]
    · have hfalse : (allowed.any fun r => u.role == r) = false := by
        rw [Bool.eq_false_iff]
        intro hc
        exact hmem (hany.mp hc)
      simp [requireRole, hfalse, hmem]
  · intro hmem
    have hfalse : (allowed.any fun r => u.role == r) = false := by
      rw [Bool.eq_false_iff]
      intro hc
      exact hmem (hany.mp hc)
    simp [requireRole, hfalse]

/-- Witness for C5: RequireRole("editor","admin") rejects a viewer with the
diagnostic Forbidden body, and admits an editor. -/
theorem c5_require_role_membership_witness :
    requireRole ["editor", "admin"]
        (some (.user ⟨"u1", "alice", "a@x.io", true, false, "org1", "viewer"⟩)) =
      .abort 403 [("error", .str "insufficient role"),
        ("message", .str "Your role does not have permission to access this resource"),
        ("required_roles", .strs ["editor", "admin"]),
        ("your_role", .str "viewer")] ∧
    requireRole ["editor", "admin"]
        (some (.user ⟨"u2", "bob", "b@x.io", true, false, "org1", "editor"⟩)) = .pass :=
  ⟨(c5_require_role_membership ["editor", "admin"]
      ⟨"u1", "alice", "a@x.io", true, false, "org1", "viewer"⟩).2 (by decide),
   (c5_require_role_membership ["editor", "admin"]
      ⟨"u2", "bob", "b@x.io", true, false, "org1", "editor"⟩).1.mpr (by decide)⟩

/-- C9: DeleteUser with a target id equal to the callers own id is rejected
with Forbidden before any storage access; the users table is unchanged. -/
theorem c9_self_delete_forbidden (currentUser : User) (targetId : String)
    (users : List User) (h : targetId = currentUser.id) :
    deleteUserHandler (some currentUser) targetId users =
      (⟨403, [("error", .str "cannot delete yourself"),
        ("message", .str "You cannot delete your own account. Ask another admin to delete it for you.")]⟩,
        users) := by
  subst h
  simp [deleteUserHandler]

/-- Witness for C9: an admin deleting itself is rejected and the table is
untouched. -/
theorem c9_self_delete_forbidden_witness :
    deleteUserHandler
        (some ⟨"u1", "alice", "a@x.io", true, true, "org1", "admin"⟩) "u1"
        [⟨"u1", "alice", "a@x.io", true, true, "org1", "admin"⟩,
         ⟨"u2", "bob", "b@x.io", true, false, "org1", "viewer"⟩] =
      (⟨403, [("error", .str "cannot delete yourself"),
        ("message", .str "You cannot delete your own account. Ask another admin to delete it for you.")]⟩,
        [⟨"u1", "alice", "a@x.io", true, true, "org1", "admin"⟩,
         ⟨"u2", "bob", "b@x.io", true, false, "org1", "viewer"⟩]) :=
  c9_self_delete_forbidden ⟨"u1", "alice", "a@x.io", true, true, "org1", "admin"⟩
    "u1" _ rfl

/-- C4: for a state-changing method on a non-exempt path, the CSRF guard
passes iff the X-CSRF-Token header is present (non-empty) and the csrf_token
cookie is present with the same value; otherwise it aborts Forbidden; and a
non-state-changing method is never subjected to the validation. -/
theorem c4_csrf_double_submit (method path headerTok : String)
    (cookieTok : Option String) (authKey : List UInt8)
    (hm : method ∈ ["POST", "PUT", "PATCH", "DELETE"])
    (hp : isAuthEndpoint path = false) :
    (csrfTokens method path headerTok cookieTok authKey = .pass ↔
      headerTok ≠ "" ∧ cookieTok = some headerTok) ∧
    (¬(headerTok ≠ "" ∧ cookieTok = some headerTok) →
      csrfTokens method path headerTok cookieTok authKey = .abort 403 csrfFailBody) ∧
    (∀ m p h ck ak, isStateChangingMethod m = false →
      csrfTokens m p h ck ak = MWOut.pass) := by
  have hsc : isStateChangingMethod method = true := by
    simp only [List.mem_cons, List.not_mem_nil, or_false] at hm
    rcases hm with rfl | rfl | rfl | rfl <;> decide
  have key : csrfTokens method path headerTok cookieTok authKey =
      if headerTok ≠ "" ∧ cookieTok = some headerTok then MWOut.pass
      else MWOut.abort 403 csrfFailBody := by
    by_cases hh : headerTok = ""
    · subst hh
      simp [csrfTokens, hsc, hp]
    · cases cookieTok with
      | none => simp [csrfTokens, hsc, hp, hh]
      | some v =>
          by_cases he : headerTok = v
          · subst he
            simp [csrfTokens, hsc, hp, hh, validateCSRFToken]
          · have he2 : ¬(v = headerTok) := fun hcc => he hcc.symm
            by_cases hv : v = ""
            · subst hv
              simp [csrfTokens, hsc, hp, hh, he2, validateCSRFToken]
            · simp [csrfTokens, hsc, hp, hh, he, he2, hv, validateCSRFToken]
  refine ⟨?_, ?_, ?_⟩
  · rw [key]
    by_cases hcond : headerTok ≠ "" ∧ cookieTok = some headerTok <;>
      simp [hcond]
  · intro hcond
    rw [key, if_neg hcond]
  · intro m p h ck ak hns
    simp [csrfTokens, hns]

/-- Witness for C4: header equal to cookie passes; a missing header is
Forbidden; a GET is never validated. -/
theorem c4_csrf_double_submit_witness :
    csrfTokens "POST" "/api/v1/hosts" "tok123" (some "tok123") [] = .pass ∧
    csrfTokens "POST" "/api/v1/hosts" "" (some "tok123") [] =
      .abort 403 csrfFailBody ∧
    csrfTokens "GET" "/api/v1/hosts" "" none [] = MWOut.pass :=
  ⟨(c4_csrf_double_submit "POST" "/api/v1/hosts" "tok123" (some "tok123") []
      (by decide) (by decide)).1.mpr (by decide),
   (c4_csrf_double_submit "POST" "/api/v1/hosts" "" (some "tok123") []
      (by decide) (by decide)).2.1 (by decide),
   (c4_csrf_double_submit "POST" "/api/v1/hosts" "" (some "tok123") []
      (by decide) (by decide)).2.2 "GET" "/api/v1/hosts" "" none [] (by decide)⟩

/-- C3: a key whose prefix matches no stored key and a key whose prefix
matches candidates none of which verify terminate identically: Unauthorized
with the same "invalid API key" body, indistinguishable to the caller. -/
theorem c3_auth_probe_indistinguishable (verify : String → String → Bool)
    (now : Nat) (keys : List APIKey) (users : List User) (k1 k2 : String)
    (h1 : k1 ≠ "") (h2 : k2 ≠ "")
    (hnm : getAPIKeyByPfx keys (getKeyPfx k1) = [])
    (hnv : ∀ k ∈ getAPIKeyByPfx keys (getKeyPfx k2),
      verify k2 k.keyHash = false) :
    authMiddleware verify now keys users false k1 "" =
      .abort 401 [("error", .str "invalid API key")] ∧
    authMiddleware verify now keys users false k2 "" =
      .abort 401 [("error", .str "invalid API key")] := by
  constructor
  · simp [authMiddleware, extractAPIKeyAuth, h1, hnm]
  · have hf : (getAPIKeyByPfx keys (getKeyPfx k2)).find?
        (fun k => verify k2 k.keyHash) = none :=
      find?_none_of _ _ fun k hk => by simp [hnv k hk]
    by_cases hc : getAPIKeyByPfx keys (getKeyPfx k2) = []
    · simp [authMiddleware, extractAPIKeyAuth, h2, hc]
    · have hie : (getAPIKeyByPfx keys (getKeyPfx k2)).isEmpty = false := by
        cases hcc : getAPIKeyByPfx keys (getKeyPfx k2) with
        | nil => exact absurd hcc hc
        | cons a as => rfl
      simp [authMiddleware, extractAPIKeyAuth, h2, hie, hf]

/-- Witness for C3: with a store holding one key of prefix "AAAAAAAA" and a
verifier rejecting everything, an unknown-prefix key "BBBBBBBBzz" and a
matching-prefix key "AAAAAAAAzz" get identical responses. -/
theorem c3_auth_probe_indistinguishable_witness :
    authMiddleware (fun _ _ => false) 0
        [⟨"k1", "u1", "hash1", "AAAAAAAA", "n", none, none, 0⟩] [] false
        "BBBBBBBBzz" "" = .abort 401 [("error", .str "invalid API key")] ∧
    authMiddleware (fun _ _ => false) 0
        [⟨"k1", "u1", "hash1", "AAAAAAAA", "n", none, none, 0⟩] [] false
        "AAAAAAAAzz" "" = .abort 401 [("error", .str "invalid API key")] :=
  c3_auth_probe_indistinguishable (fun _ _ => false) 0
    [⟨"k1", "u1", "hash1", "AAAAAAAA", "n", none, none, 0⟩] []
    "BBBBBBBBzz" "AAAAAAAAzz" (by decide) (by decide) (by decide)
    (by decide)

/-- C6: a limiter-backend error makes the rate-limit middleware proceed
(fail-open), while an auth-store error, a key that verifies against no
candidate, and a role-membership failure all terminate the request
(fail-closed). -/
theorem c6_rate_limit_fail_open_auth_fail_closed :
    (∀ periodSecs rateLimit periodStr resetTimeStr msg,
      apiKeyRateLimitStep periodSecs rateLimit periodStr resetTimeStr
        (.err msg) = .pass) ∧
    (∀ (verify : String → String → Bool) now keys users xApiKey authHeader,
      extractAPIKeyAuth xApiKey authHeader ≠ "" →
      authMiddleware verify now keys users true xApiKey authHeader =
        .abort 500 [("error", .str "authentication error")]) ∧
    (∀ (verify : String → String → Bool) now keys users xApiKey authHeader,
      (∀ k ∈ getAPIKeyByPfx keys
          (getKeyPfx (extractAPIKeyAuth xApiKey authHeader)),
        verify (extractAPIKeyAuth xApiKey authHeader) k.keyHash = false) →
      ∃ body, authMiddleware verify now keys users false xApiKey authHeader =
        .abort 401 body) ∧
    (∀ allowed u, u.role ∉ allowed →
      requireRole allowed (some (.user u)) =
        .abort 403 [("error", .str "insufficient role"),
          ("message", .str "Your role does not have permission to access this resource"),
          ("required_roles", .strs allowed),
          ("your_role", .str u.role)]) := by
  refine ⟨fun _ _ _ _ _ => rfl, ?_, ?_, ?_⟩
  · intro verify now keys users xApiKey authHeader hne
    have hb : (extractAPIKeyAuth xApiKey authHeader == "") = false := by
      simp [hne]
    simp [authMiddleware, hb]
  · intro verify now keys users xApiKey authHeader hnv
    by_cases hemp : extractAPIKeyAuth xApiKey authHeader = ""
    · exact ⟨[("error", .str "missing API key"),
        ("message", .str "Please provide an API key in the X-API-Key header")],
        by simp [authMiddleware, hemp]⟩
    · have hf : (getAPIKeyByPfx keys
          (getKeyPfx (extractAPIKeyAuth xApiKey authHeader))).find?
          (fun k => verify (extractAPIKeyAuth xApiKey authHeader) k.keyHash)
          = none :=
        find?_none_of _ _ fun k hk => by simp [hnv k hk]
      by_cases hc : getAPIKeyByPfx keys
          (getKeyPfx (extractAPIKeyAuth xApiKey authHeader)) = []
      · exact ⟨[("error", .str "invalid API key")],
          by simp [authMiddleware, hemp, hc]⟩
      · have hie : (getAPIKeyByPfx keys
            (getKeyPfx (extractAPIKeyAuth xApiKey authHeader))).isEmpty
            = false := by
          cases hcc : getAPIKeyByPfx keys
              (getKeyPfx (extractAPIKeyAuth xApiKey authHeader)) with
          | nil => exact absurd hcc hc
          | cons a as => rfl
        exact ⟨[("error", .str "invalid API key")],
          by simp [authMiddleware, hemp, hie, hf]⟩
  · intro allowed u hmem
    have hany : (allowed.any fun r => u.role == r) = false := by
      rw [Bool.eq_false_iff]
      intro hc
      rw [List.any_eq_true] at hc
      obtain ⟨x, hx, hxx⟩ := hc
      exact hmem (beq_iff_eq.mp hxx ▸ hx)
    simp [requireRole, hany]

/-- Witness for C6 at concrete inputs: a backend error proceeds, an
auth-store error aborts 500, a never-verifying key aborts 401, a viewer
against an admin-only list aborts 403. -/
theorem c6_rate_limit_fail_open_auth_fail_closed_witness :
    apiKeyRateLimitStep 60 100 "1m0s" "2026-01-01T00:00:00Z" (.err "redis down")
      = .pass ∧
    authMiddleware (fun _ _ => false) 0 [] [] true "sk-1" "" =
      .abort 500 [("error", .str "authentication error")] ∧
    (∃ body, authMiddleware (fun _ _ => false) 0 [] [] false "sk-1" "" =
      .abort 401 body) ∧
    requireRole ["admin"]
        (some (.user ⟨"u1", "alice", "a@x.io", true, false, "org1", "viewer"⟩)) =
      .abort 403 [("error", .str "insufficient role"),
        ("message", .str "Your role does not have permission to access this resource"),
        ("required_roles", .strs ["admin"]),
        ("your_role", .str "viewer")] :=
  ⟨c6_rate_limit_fail_open_auth_fail_closed.1 60 100 "1m0s"
      "2026-01-01T00:00:00Z" "redis down",
   c6_rate_limit_fail_open_auth_fail_closed.2.1 (fun _ _ => false) 0 [] []
      "sk-1" "" (by decide),
   c6_rate_limit_fail_open_auth_fail_closed.2.2.1 (fun _ _ => false) 0 [] []
      "sk-1" "" (by decide),
   c6_rate_limit_fail_open_auth_fail_closed.2.2.2 ["admin"]
      ⟨"u1", "alice", "a@x.io", true, false, "org1", "viewer"⟩ (by decide)⟩

/-- C1: when every row carrying the queried host id belongs to a different
organization (in particular when no such row exists at all), GetHost and
DeleteHost return the not-found outcome with the table untouched, and
ListHosts / GetAllHosts only ever surface rows of the caller organization. -/
theorem c1_tenant_scoped_host_ops (db : List HostRow) (hostId orgId : String)
    (extractOS : String → OSInfo)
    (hnone : ∀ r ∈ db, r.hostId = hostId → r.orgId ≠ orgId) :
    getHost hostId orgId db = .error .notFound ∧
    deleteHost hostId orgId db = (.error .notFound, db) ∧
    (∀ s ∈ listHosts extractOS orgId db, s.orgId = orgId) ∧
    (∀ rep ∈ getAllHosts orgId db,
      ∃ r ∈ db, r.orgId = orgId ∧ rep = reportOfRow r) := by
  have hpred : ∀ r ∈ db, ¬((r.hostId == hostId && r.orgId == orgId) = true) := by
    intro r hr hc
    rw [Bool.and_eq_true, beq_iff_eq, beq_iff_eq] at hc
    exact hnone r hr hc.1 hc.2
  refine ⟨?_, ?_, ?_, ?_⟩
  · have hfind : db.find? (fun r => r.hostId == hostId && r.orgId == orgId)
        = none := find?_none_of _ _ hpred
    simp [getHost, hfind]
  · have hfil : db.filter (fun r => r.hostId == hostId && r.orgId == orgId)
        = [] := filter_pos_eq_nil _ _ hpred
    have hneg : db.filter (fun r => !(r.hostId == hostId && r.orgId == orgId))
        = db := filter_neg_eq_self _ _ hpred
    simp only [deleteHost, hfil, hneg, List.length_nil, if_pos]
  · intro s hs
    simp only [listHosts, List.mem_map, List.mem_filter] at hs
    obtain ⟨r, ⟨hrdb, hro⟩, rfl⟩ := hs
    simpa [summaryOfRow] using beq_iff_eq.mp hro
  · intro rep hrep
    simp only [getAllHosts, List.mem_map, List.mem_filter] at hrep
    obtain ⟨r, ⟨hrdb, hro⟩, rfl⟩ := hrep
    exact ⟨r, hrdb, beq_iff_eq.mp hro, rfl⟩

/-- Witness for C1: a table holding one host of organization orgA, queried
under orgB. -/
theorem c1_tenant_scoped_host_ops_witness :
    getHost "h1" "orgB"
        [⟨"h1", "web-1", 3, "c0", 2, "1.0", "d", [], "orgA", "u1"⟩] =
      .error .notFound ∧
    deleteHost "h1" "orgB"
        [⟨"h1", "web-1", 3, "c0", 2, "1.0", "d", [], "orgA", "u1"⟩] =
      (.error .notFound,
        [⟨"h1", "web-1", 3, "c0", 2, "1.0", "d", [], "orgA", "u1"⟩]) ∧
    (∀ s ∈ listHosts (fun _ => ⟨"", "", "", "", ""⟩) "orgB"
        [⟨"h1", "web-1", 3, "c0", 2, "1.0", "d", [], "orgA", "u1"⟩],
      s.orgId = "orgB") ∧
    (∀ rep ∈ getAllHosts "orgB"
        [⟨"h1", "web-1", 3, "c0", 2, "1.0", "d", [], "orgA", "u1"⟩],
      ∃ r ∈ [⟨"h1", "web-1", 3, "c0", 2, "1.0", "d", [], "orgA", "u1"⟩],
        r.orgId = "orgB" ∧ rep = reportOfRow r) :=
  c1_tenant_scoped_host_ops
    [⟨"h1", "web-1", 3, "c0", 2, "1.0", "d", [], "orgA", "u1"⟩]
    "h1" "orgB" (fun _ => ⟨"", "", "", "", ""⟩) (by decide)

/-- C2: at the failing input — a host stored under orgA written again under
orgB — SaveHost does reject the write and leaves the row untouched, but the
surfaced error wraps the ErrNotFound sentinel (errors.Is(err, ErrNotFound)
holds); no Conflict-flavored error exists anywhere in the storage layer, so
the rejection is a not-found outcome, not the distinct Conflict the
specification prescribes. -/
theorem c2_cross_org_save_surfaces_not_found :
    saveHost
        ⟨"", 5, ⟨"web-1", "h1", "c1", 4, "1.0"⟩, "newdata", []⟩
        "orgB" "u2"
        [⟨"h1", "web-1", 3, "c0", 2, "1.0", "olddata", [], "orgA", "u1"⟩] =
      (.error (.wrapped "host belongs to a different organization" .notFound),
        [⟨"h1", "web-1", 3, "c0", 2, "1.0", "olddata", [], "orgA", "u1"⟩]) ∧
    GoError.isNotFound
      (.wrapped "host belongs to a different organization" .notFound) = true := by
  constructor
  · rfl
  · rfl

/-- C7: in Login, CreateAPIKey and GetAPIKeyFromCredentials, the plaintext
key appears in the response body only when the CreateAPIKey persistence call
succeeded; when persistence fails the handler returns an error status whose
body never carries the plaintext field. -/
theorem c7_persist_then_respond (bindErr : Option String)
    (lookupRes : Except GoError (User × String))
    (checkPassword : String → String → Bool)
    (plainKey keyHash keyPfx : String)
    (createRes : Except GoError APIKey) (req : LoginReq)
    (ctxUserId : Option String) :
    (∀ e, createRes = .error e →
      ((login bindErr lookupRes checkPassword
          (some (plainKey, keyHash, keyPfx)) createRes req).status ≠ 200 ∧
        ("token", JVal.str plainKey) ∉
          (login bindErr lookupRes checkPassword
            (some (plainKey, keyHash, keyPfx)) createRes req).body) ∧
      ((createAPIKeyHandler ctxUserId bindErr
          (some (plainKey, keyHash, keyPfx)) createRes).status ≠ 201 ∧
        ("key", JVal.str plainKey) ∉
          (createAPIKeyHandler ctxUserId bindErr
            (some (plainKey, keyHash, keyPfx)) createRes).body) ∧
      ((getAPIKeyFromCredentials bindErr lookupRes checkPassword
          (some (plainKey, keyHash, keyPfx)) createRes req).status ≠ 200 ∧
        ("key", JVal.str plainKey) ∉
          (getAPIKeyFromCredentials bindErr lookupRes checkPassword
            (some (plainKey, keyHash, keyPfx)) createRes req).body)) ∧
    ((("token", JVal.str plainKey) ∈
        (login bindErr lookupRes checkPassword
          (some (plainKey, keyHash, keyPfx)) createRes req).body →
      ∃ row, createRes = .ok row) ∧
     (("key", JVal.str plainKey) ∈
        (createAPIKeyHandler ctxUserId bindErr
          (some (plainKey, keyHash, keyPfx)) createRes).body →
      ∃ row, createRes = .ok row) ∧
     (("key", JVal.str plainKey) ∈
        (getAPIKeyFromCredentials bindErr lookupRes checkPassword
          (some (plainKey, keyHash, keyPfx)) createRes req).body →
      ∃ row, createRes = .ok row)) := by
  constructor
  · rintro e rfl
    refine ⟨?_, ?_, ?_⟩
    · cases bindErr with
      | some m => simp [login]
      | none =>
          cases lookupRes with
          | error ge => simp [login]
          | ok p =>
              obtain ⟨u, passwordHash⟩ := p
              by_cases ha : u.isActive <;>
                by_cases hcp : checkPassword req.password passwordHash <;>
                simp [login, ha, hcp]
    · cases ctxUserId with
      | none => simp [createAPIKeyHandler]
      | some uid =>
          cases bindErr with
          | some m => simp [createAPIKeyHandler]
          | none => simp [createAPIKeyHandler]
    · cases bindErr with
      | some m => simp [getAPIKeyFromCredentials]
      | none =>
          cases lookupRes with
          | error ge => simp [getAPIKeyFromCredentials]
          | ok p =>
              obtain ⟨u, passwordHash⟩ := p
              by_cases ha : u.isActive <;>
                by_cases hcp : checkPassword req.password passwordHash <;>
                simp [getAPIKeyFromCredentials, ha, hcp]
  · refine ⟨?_, ?_, ?_⟩
    · intro hmem
      cases createRes with
      | ok row => exact ⟨row, rfl⟩
      | error e =>
          exfalso
          revert hmem
          cases bindErr with
          | some m => simp [login]
          | none =>
              cases lookupRes with
              | error ge => simp [login]
              | ok p =>
                  obtain ⟨u, passwordHash⟩ := p
                  by_cases ha : u.isActive <;>
                    by_cases hcp : checkPassword req.password passwordHash <;>
                    simp [login, ha, hcp]
    · intro hmem
      cases createRes with
      | ok row => exact ⟨row, rfl⟩
      | error e =>
          exfalso
          revert hmem
          cases ctxUserId with
          | none => simp [createAPIKeyHandler]
          | some uid =>
              cases bindErr with
              | some m => simp [createAPIKeyHandler]
              | none => simp [createAPIKeyHandler]
    · intro hmem
      cases createRes with
      | ok row => exact ⟨row, rfl⟩
      | error e =>
          exfalso
          revert hmem
          cases bindErr with
          | some m => simp [getAPIKeyFromCredentials]
          | none =>
              cases lookupRes with
              | error ge => simp [getAPIKeyFromCredentials]
              | ok p =>
                  obtain ⟨u, passwordHash⟩ := p
                  by_cases ha : u.isActive <;>
                    by_cases hcp : checkPassword req.password passwordHash <;>
                    simp [getAPIKeyFromCredentials, ha, hcp]

/-- Witness for C7: with a failing persistence call, Login returns a 500
whose body does not disclose the generated plaintext. -/
theorem c7_persist_then_respond_witness :
    (login none
        (.ok (⟨"u1", "alice", "a@x.io", true, false, "org1", "admin"⟩, "ph"))
        (fun _ _ => true) (some ("PLAINKEY", "HASH", "PLAINKEY"))
        (.error .notFound) ⟨"alice", "pw"⟩).status ≠ 200 ∧
    ("token", JVal.str "PLAINKEY") ∉
      (login none
        (.ok (⟨"u1", "alice", "a@x.io", true, false, "org1", "admin"⟩, "ph"))
        (fun _ _ => true) (some ("PLAINKEY", "HASH", "PLAINKEY"))
        (.error .notFound) ⟨"alice", "pw"⟩).body :=
  ((c7_persist_then_respond none
      (.ok (⟨"u1", "alice", "a@x.io", true, false, "org1", "admin"⟩, "ph"))
      (fun _ _ => true) "PLAINKEY" "HASH" "PLAINKEY"
      (.error .notFound) ⟨"alice", "pw"⟩ (some "u1")).1 .notFound rfl).1

/-- C8 counterexample: generateCSRFToken draws 32 random bytes — exactly
APIKeyLength, not a shorter, cookie-appropriate length as claimed. -/
theorem c8_csrf_not_shorter :
    csrfTokenNumBytes = apiKeyLength ∧
    ¬(csrfTokenNumBytes < apiKeyLength) := by
  constructor
  · rfl
  · decide

/-- C8 amended: CSRF token generation is the same draw-random-bytes-then-
base64 shape as API key generation, but at the same 32-byte length (not a
shorter one), and with the standard rather than the URL-safe alphabet (they
genuinely differ, e.g. on byte 251). -/
theorem c8_csrf_token_generation (draw : Nat → List UInt8)
    (bcryptHash : List UInt8 → String) :
    generateCSRFTokenDraw draw = base64Encode true (draw csrfTokenNumBytes) ∧
    (generateAPIKeyDraw bcryptHash draw).1 =
      base64Encode false (draw apiKeyLength) ∧
    csrfTokenNumBytes = apiKeyLength ∧
    base64Encode true [251] ≠ base64Encode false [251] := by
  refine ⟨rfl, rfl, rfl, ?_⟩
  decide

end Snailbus
